import Mathlib

/-!
Verification development for the `contract_interck_ink` repository.

It embeds the two ink! contracts as purely functional Lean definitions:

* `Token` — the PSP20-style token ledger from `src/v6psp20/lib.rs`
  (total supply, balances, allowances, owner, pause flag, blacklist).
* `V6psp20piggybank` — the piggy-bank vault from `src/v6psp20piggy/lib.rs`
  (vault balances, savings goals, lock times, a handle to the token ledger).

Accounts (`H160` in the source) are modelled as `Nat` with decidable
equality; only equality of accounts is ever used.  Balances (`u128`) are
modelled as `Nat` together with explicitly saturating arithmetic that clamps
at `2 ^ 128 - 1`, exactly as `saturating_add` / `saturating_sub` do on
`u128`.  The ink! `Mapping` type is modelled as an association list for the
ledger (so that the sum of all stored balance entries is expressible) and as
a function into `Option` for the vault.  Fallible messages return the
post-state paired with an optional error, mirroring how the Rust methods
mutate `self` in place and early-return an `Err`.
-/

/-- Account identifiers (`H160` in the source): an opaque type with
decidable equality, modelled as `Nat`. -/
abbrev Account := Nat

/-- Token amounts (`Balance = u128` in the source), modelled as `Nat`. -/
abbrev Balance := Nat

/-- The largest value representable in a `u128`. -/
def u128max : Nat := 2 ^ 128 - 1

/-- `u128::saturating_add`: addition clamped at `u128::MAX`. -/
def saturating_add (a b : Nat) : Nat := min (a + b) u128max

/-- `u128::saturating_sub`: subtraction clamped at zero (this is exactly
truncated subtraction on `Nat`). -/
def saturating_sub (a b : Nat) : Nat := a - b

/-- Lookup in an association-list map (`Mapping::get`): the value at the
first occurrence of the key, if any. -/
def mapGet {α β : Type} [DecidableEq α] : List (α × β) → α → Option β
  | [], _ => none
  | (k2, v) :: rest, k => if k2 = k then some v else mapGet rest k

/-- Insertion into an association-list map (`Mapping::insert`): overwrite
the first occurrence of the key, or append a fresh entry. -/
def mapInsert {α β : Type} [DecidableEq α] : List (α × β) → α → β → List (α × β)
  | [], k, v => [(k, v)]
  | (k2, v2) :: rest, k, v =>
    if k2 = k then (k2, v) :: rest else (k2, v2) :: mapInsert rest k v

/-- Deletion from an association-list map (`Mapping::remove`): drop the
first occurrence of the key. -/
def mapRemove {α β : Type} [DecidableEq α] : List (α × β) → α → List (α × β)
  | [], _ => []
  | (k2, v2) :: rest, k => if k2 = k then rest else (k2, v2) :: mapRemove rest k

/-- Sum of all values stored in an association-list map. -/
def sumVals {α : Type} : List (α × Nat) → Nat
  | [] => 0
  | (_, v) :: rest => v + sumVals rest

theorem mapGet_mapInsert_self {α β : Type} [DecidableEq α]
    (m : List (α × β)) (k : α) (v : β) : mapGet (mapInsert m k v) k = some v := by
  induction m with
  | nil => simp [mapInsert, mapGet]
  | cons hd tl ih =>
    obtain ⟨k2, v2⟩ := hd
    by_cases h : k2 = k
    · simp [mapInsert, mapGet, h]
    · simp [mapInsert, mapGet, h, ih]

theorem mapGet_mapInsert_ne {α β : Type} [DecidableEq α]
    (m : List (α × β)) (k k2 : α) (v : β) (h : k ≠ k2) :
    mapGet (mapInsert m k v) k2 = mapGet m k2 := by
  induction m with
  | nil => simp [mapInsert, mapGet, h]
  | cons hd tl ih =>
    obtain ⟨k3, v3⟩ := hd
    by_cases h3 : k3 = k
    · subst h3; simp [mapInsert, mapGet, h]
    · simp [mapInsert, mapGet, h3, ih]

theorem mapGet_mapRemove_first {α β : Type} [DecidableEq α]
    (m : List (α × β)) (k : α) :
    mapGet m k = none → mapGet (mapRemove m k) k = none := by
  induction m with
  | nil => simp [mapRemove, mapGet]
  | cons hd tl ih =>
    obtain ⟨k2, v2⟩ := hd
    intro hnone
    by_cases h : k2 = k
    · simp [mapGet, h] at hnone
    · simp [mapGet, h] at hnone
      simp [mapRemove, mapGet, h, ih hnone]

theorem getD_mapGet_le_sumVals {α : Type} [DecidableEq α]
    (m : List (α × Nat)) (k : α) : (mapGet m k).getD 0 ≤ sumVals m := by
  induction m with
  | nil => simp [mapGet, sumVals]
  | cons hd tl ih =>
    obtain ⟨k2, v2⟩ := hd
    by_cases h : k2 = k
    · simp [mapGet, h, sumVals]
    · simp [mapGet, h, sumVals]; omega

theorem sumVals_mapInsert {α : Type} [DecidableEq α]
    (m : List (α × Nat)) (k : α) (v : Nat) :
    sumVals (mapInsert m k v) + (mapGet m k).getD 0 = sumVals m + v := by
  induction m with
  | nil => simp [mapInsert, mapGet, sumVals]
  | cons hd tl ih =>
    obtain ⟨k2, v2⟩ := hd
    by_cases h : k2 = k
    · simp [mapInsert, mapGet, h, sumVals]; omega
    · simp [mapInsert, mapGet, h, sumVals]; omega

/-- The token-ledger storage struct (`struct Token` in `src/v6psp20/lib.rs`). -/
structure Token where
  /-- Total token supply. -/
  total_supply : Balance
  /-- Mapping from owner to balance. -/
  balances : List (Account × Balance)
  /-- Mapping from (owner, spender) to allowance. -/
  allowances : List ((Account × Account) × Balance)
  /-- Contract owner. -/
  owner : Account
  /-- Paused state. -/
  paused : Bool
  /-- Blacklisted addresses. -/
  blacklist : List (Account × Bool)
deriving DecidableEq, Repr

namespace Token

/-- The ledger's error enum (`enum Error` in `src/v6psp20/lib.rs`). -/
inductive Error where
  | InsufficientBalance
  | InsufficientAllowance
  | Paused
  | Blacklisted
  | Unauthorized
deriving DecidableEq, Repr

/-- Constructor `Token::new`: the whole initial supply is credited to the
deploying caller, who also becomes the owner. -/
def new (caller : Account) (initial_supply : Balance) : Token :=
  { total_supply := initial_supply
    balances := mapInsert [] caller initial_supply
    allowances := []
    owner := caller
    paused := false
    blacklist := [] }

/-- `balance_of`: stored balance, or 0 when no entry exists. -/
def balance_of (t : Token) (owner : Account) : Balance :=
  (mapGet t.balances owner).getD 0

/-- `allowance`: stored allowance, or 0 when no entry exists. -/
def allowance (t : Token) (owner spender : Account) : Balance :=
  (mapGet t.allowances (owner, spender)).getD 0

/-- `is_blacklisted`: stored flag, or `false` when no entry exists. -/
def is_blacklisted (t : Token) (account : Account) : Bool :=
  (mapGet t.blacklist account).getD false

/-- `is_paused`. -/
def is_paused (t : Token) : Bool := t.paused

/-- Internal `transfer_from_to` (lines 341–373 of `src/v6psp20/lib.rs`):
pause check, blacklist check on both parties, sufficiency check on the
sender's balance, then debit the sender and credit the recipient (the
recipient's balance is re-read from the already-debited map, which makes a
self-transfer a no-op).  On an early `Err` return the state is the
untouched `self`. -/
def transfer_from_to (t : Token) (frm dst : Account) (value : Balance) :
    Token × Option Error :=
  if t.paused then (t, some Error.Paused)
  else if is_blacklisted t frm || is_blacklisted t dst then (t, some Error.Blacklisted)
  else if balance_of t frm < value then (t, some Error.InsufficientBalance)
  else
    let t1 : Token :=
      { t with balances := mapInsert t.balances frm (saturating_sub (balance_of t frm) value) }
    ({ t1 with balances := mapInsert t1.balances dst (saturating_add (balance_of t1 dst) value) },
      none)

/-- `transfer`: delegates to `transfer_from_to` with `from` = caller. -/
def transfer (t : Token) (caller dst : Account) (value : Balance) :
    Token × Option Error :=
  transfer_from_to t caller dst value

/-- `approve`: unconditionally overwrite `allowances[(caller, spender)]`. -/
def approve (t : Token) (caller spender : Account) (value : Balance) :
    Token × Option Error :=
  ({ t with allowances := mapInsert t.allowances (caller, spender) value }, none)

/-- `transfer_from`: check the caller's allowance from `frm` first, then run
`transfer_from_to` and, only on its success, store the saturatingly
decremented allowance. -/
def transfer_from (t : Token) (caller frm dst : Account) (value : Balance) :
    Token × Option Error :=
  if allowance t frm caller < value then (t, some Error.InsufficientAllowance)
  else
    match transfer_from_to t frm dst value with
    | (t1, some e) => (t1, some e)
    | (t1, none) =>
      ({ t1 with
          allowances :=
            mapInsert t1.allowances (frm, caller)
              (saturating_sub (allowance t frm caller) value) }, none)

/-- `mint`: credit the caller and grow the supply, both saturating; no
access control and no pause/blacklist gate. -/
def mint (t : Token) (caller : Account) (value : Balance) :
    Token × Option Error :=
  ({ t with
      balances := mapInsert t.balances caller (saturating_add (balance_of t caller) value)
      total_supply := saturating_add t.total_supply value }, none)

/-- `burn`: debit the caller and shrink the supply after a sufficiency
check; no pause/blacklist gate. -/
def burn (t : Token) (caller : Account) (value : Balance) :
    Token × Option Error :=
  if balance_of t caller < value then (t, some Error.InsufficientBalance)
  else
    ({ t with
        balances := mapInsert t.balances caller (saturating_sub (balance_of t caller) value)
        total_supply := saturating_sub t.total_supply value }, none)

/-- `increase_allowance`: saturating add onto the stored allowance. -/
def increase_allowance (t : Token) (caller spender : Account) (delta_value : Balance) :
    Token × Option Error :=
  ({ t with
      allowances :=
        mapInsert t.allowances (caller, spender)
          (saturating_add (allowance t caller spender) delta_value) }, none)

/-- `decrease_allowance`: sufficiency check, then saturating subtract. -/
def decrease_allowance (t : Token) (caller spender : Account) (delta_value : Balance) :
    Token × Option Error :=
  if allowance t caller spender < delta_value then (t, some Error.InsufficientAllowance)
  else
    ({ t with
        allowances :=
          mapInsert t.allowances (caller, spender)
            (saturating_sub (allowance t caller spender) delta_value) }, none)

/-- `pause`: owner-only; sets the paused flag. -/
def pause (t : Token) (caller : Account) : Token × Option Error :=
  if caller ≠ t.owner then (t, some Error.Unauthorized)
  else ({ t with paused := true }, none)

/-- `unpause`: owner-only; clears the paused flag. -/
def unpause (t : Token) (caller : Account) : Token × Option Error :=
  if caller ≠ t.owner then (t, some Error.Unauthorized)
  else ({ t with paused := false }, none)

/-- `blacklist_address`: owner-only; inserts `true` for the account. -/
def blacklist_address (t : Token) (caller account : Account) : Token × Option Error :=
  if caller ≠ t.owner then (t, some Error.Unauthorized)
  else ({ t with blacklist := mapInsert t.blacklist account true }, none)

/-- `remove_from_blacklist`: owner-only; removes the account's entry. -/
def remove_from_blacklist (t : Token) (caller account : Account) : Token × Option Error :=
  if caller ≠ t.owner then (t, some Error.Unauthorized)
  else ({ t with blacklist := mapRemove t.blacklist account }, none)

/-- `batch_transfer`: apply `transfer` to each `(to, value)` entry in list
order; the `?` operator stops at the first failing entry and propagates its
error, with `self` left as it stood at that point. -/
def batch_transfer (t : Token) (caller : Account) :
    List (Account × Balance) → Token × Option Error
  | [] => (t, none)
  | (dst, value) :: rest =>
    match transfer t caller dst value with
    | (t1, some e) => (t1, some e)
    | (t1, none) => batch_transfer t1 caller rest

end Token

/-- A `transfer`/`transfer_from` request against the ledger, tagged with its
caller (claim C1 quantifies over sequences of exactly these two messages). -/
inductive TOp where
  | transfer (caller dst : Account) (value : Balance)
  | transfer_from (caller frm dst : Account) (value : Balance)
deriving DecidableEq, Repr

namespace Token

/-- Dispatch one `TOp` against the ledger. -/
def applyTOp (t : Token) : TOp → Token × Option Error
  | .transfer caller dst value => transfer t caller dst value
  | .transfer_from caller frm dst value => transfer_from t caller frm dst value

/-- Run a sequence of `TOp`s, keeping the post-state of each message whether
it succeeded or failed. -/
def runTOps (t : Token) : List TOp → Token
  | [] => t
  | op :: rest => runTOps (applyTOp t op).fst rest

end Token

/-- One of the fallible ledger messages, tagged with its caller (claim C6
ranges over exactly the messages that can return an error). -/
inductive LedgerOp where
  | transfer (caller dst : Account) (value : Balance)
  | transfer_from (caller frm dst : Account) (value : Balance)
  | burn (caller : Account) (value : Balance)
  | decrease_allowance (caller spender : Account) (delta_value : Balance)
  | pause (caller : Account)
  | unpause (caller : Account)
  | blacklist_address (caller account : Account)
  | remove_from_blacklist (caller account : Account)
deriving DecidableEq, Repr

namespace Token

/-- Dispatch one `LedgerOp` against the ledger. -/
def applyOp (t : Token) : LedgerOp → Token × Option Error
  | .transfer caller dst value => transfer t caller dst value
  | .transfer_from caller frm dst value => transfer_from t caller frm dst value
  | .burn caller value => burn t caller value
  | .decrease_allowance caller spender delta_value => decrease_allowance t caller spender delta_value
  | .pause caller => pause t caller
  | .unpause caller => unpause t caller
  | .blacklist_address caller account => blacklist_address t caller account
  | .remove_from_blacklist caller account => remove_from_blacklist t caller account

/-- Run a prefix of `batch_transfer` entries, reporting the reached state
only when every single `transfer` succeeded (used to state claim C7). -/
def transfersOk (t : Token) (caller : Account) :
    List (Account × Balance) → Option Token
  | [] => some t
  | (dst, value) :: rest =>
    match transfer t caller dst value with
    | (t1, none) => transfersOk t1 caller rest
    | (_, some _) => none

end Token

/-- Function-backed map for the vault's `Mapping` fields: absence is `none`. -/
def mupdate {β : Type} (m : Account → Option β) (k : Account) (v : β) :
    Account → Option β :=
  fun a => if a = k then some v else m a

/-- Removal for the vault's `Mapping` fields (`Mapping::remove`). -/
def mdelete {β : Type} (m : Account → Option β) (k : Account) :
    Account → Option β :=
  fun a => if a = k then none else m a

/-- The piggy-bank storage struct (`struct V6psp20piggybank` in
`src/v6psp20piggy/lib.rs`). -/
structure V6psp20piggybank where
  /-- Token contract address for the cross-contract calls. -/
  token_address : Account
  /-- Mapping from owner to their vault balance. -/
  balances : Account → Option Balance
  /-- Mapping from owner to their savings goal. -/
  goals : Account → Option Balance
  /-- Mapping from owner to their lock time (timestamp). -/
  lock_times : Account → Option Nat
  /-- Contract owner. -/
  owner : Account

namespace V6psp20piggybank

/-- The vault's error enum (`enum Error` in `src/v6psp20piggy/lib.rs`). -/
inductive Error where
  | InsufficientBalance
  | GoalNotReached
  | WithdrawalTooEarly
  | Unauthorized
  | ZeroAmount
  | TokenTransferFailed
deriving DecidableEq, Repr

/-- Constructor `V6psp20piggybank::new`. -/
def new (caller token_address : Account) : V6psp20piggybank :=
  { token_address := token_address
    balances := fun _ => none
    goals := fun _ => none
    lock_times := fun _ => none
    owner := caller }

/-- `balance_of`: stored vault balance, or 0 when no entry exists. -/
def balance_of (p : V6psp20piggybank) (owner : Account) : Balance :=
  (p.balances owner).getD 0

/-- `goal_of`: stored goal, or 0 when no entry exists. -/
def goal_of (p : V6psp20piggybank) (owner : Account) : Balance :=
  (p.goals owner).getD 0

/-- `lock_time_of`: stored lock time, or 0 when no entry exists. -/
def lock_time_of (p : V6psp20piggybank) (owner : Account) : Nat :=
  (p.lock_times owner).getD 0

/-- The lock-time gate shared by `withdraw` and `break_piggy_bank`: blocked
exactly when a lock time is stored for the caller and the current block
timestamp is still below it. -/
def locked (p : V6psp20piggybank) (caller : Account) (now : Nat) : Bool :=
  match p.lock_times caller with
  | some lock_time => decide (now < lock_time)
  | none => false

/-- `is_goal_reached`: balance ≥ goal when a goal entry is stored, `false`
otherwise. -/
def is_goal_reached (p : V6psp20piggybank) (owner : Account) : Bool :=
  match p.goals owner with
  | some goal => decide (balance_of p owner ≥ goal)
  | none => false

/-- `set_goal`: unconditional overwrite of the caller's goal entry. -/
def set_goal (p : V6psp20piggybank) (caller : Account) (goal : Balance) :
    V6psp20piggybank × Option Error :=
  ({ p with goals := mupdate p.goals caller goal }, none)

/-- `set_lock_time`: unconditional overwrite of the caller's lock entry. -/
def set_lock_time (p : V6psp20piggybank) (caller : Account) (lock_time : Nat) :
    V6psp20piggybank × Option Error :=
  ({ p with lock_times := mupdate p.lock_times caller lock_time }, none)

/-- `deposit` (lines 86–132 of `src/v6psp20piggy/lib.rs`): reject a zero
amount, then perform the cross-contract `transfer_from` on the token ledger
*before* any vault-local mutation; only when that call succeeds is the
caller's vault balance saturatingly increased.  The call boundary is the
oracle `call_ok` — per the spec's call model its only outcomes are success
or failure, the latter covering both an unreachable callee
(`try_invoke` error) and an `Err` returned by the ledger, and both are
collapsed into `TokenTransferFailed`. -/
def deposit (p : V6psp20piggybank) (caller : Account) (amount : Balance)
    (call_ok : Bool) : V6psp20piggybank × Option Error :=
  if amount = 0 then (p, some Error.ZeroAmount)
  else if !call_ok then (p, some Error.TokenTransferFailed)
  else
    ({ p with
        balances := mupdate p.balances caller (saturating_add (balance_of p caller) amount) },
      none)

/-- `withdraw` (lines 152–195 of `src/v6psp20piggy/lib.rs`): zero-amount,
sufficiency and lock-time checks, then the caller's vault balance is
decremented *before* the cross-contract ledger `transfer`; when that call
fails the decrement is left in place and `TokenTransferFailed` is
returned. -/
def withdraw (p : V6psp20piggybank) (caller : Account) (amount : Balance)
    (now : Nat) (call_ok : Bool) : V6psp20piggybank × Option Error :=
  if amount = 0 then (p, some Error.ZeroAmount)
  else if balance_of p caller < amount then (p, some Error.InsufficientBalance)
  else if locked p caller now then (p, some Error.WithdrawalTooEarly)
  else
    let p1 : V6psp20piggybank :=
      { p with
          balances := mupdate p.balances caller (saturating_sub (balance_of p caller) amount) }
    if !call_ok then (p1, some Error.TokenTransferFailed) else (p1, none)

/-- `break_piggy_bank` (lines 199–238 of `src/v6psp20piggy/lib.rs`):
requires a non-zero vault balance and an elapsed lock time, then *removes*
the caller's balance, goal and lock-time entries before the cross-contract
ledger `transfer`; when that call fails the removals are left in place and
`TokenTransferFailed` is returned. -/
def break_piggy_bank (p : V6psp20piggybank) (caller : Account) (now : Nat)
    (call_ok : Bool) : V6psp20piggybank × Option Error :=
  if balance_of p caller = 0 then (p, some Error.InsufficientBalance)
  else if locked p caller now then (p, some Error.WithdrawalTooEarly)
  else
    let p1 : V6psp20piggybank :=
      { p with
          balances := mdelete p.balances caller
          goals := mdelete p.goals caller
          lock_times := mdelete p.lock_times caller }
    if !call_ok then (p1, some Error.TokenTransferFailed) else (p1, none)

/-- `withdraw_if_goal_reached`: when a goal is stored and not yet met fail
with `GoalNotReached`, otherwise delegate to `withdraw`. -/
def withdraw_if_goal_reached (p : V6psp20piggybank) (caller : Account)
    (amount : Balance) (now : Nat) (call_ok : Bool) :
    V6psp20piggybank × Option Error :=
  match p.goals caller with
  | some goal =>
    if balance_of p caller < goal then (p, some Error.GoalNotReached)
    else withdraw p caller amount now call_ok
  | none => withdraw p caller amount now call_ok

end V6psp20piggybank

namespace Token

theorem transfer_from_to_err (t : Token) (frm dst : Account) (value : Balance)
    (e : Error) :
    (transfer_from_to t frm dst value).snd = some e →
    (transfer_from_to t frm dst value).fst = t := by
  unfold transfer_from_to
  split_ifs <;> simp

theorem transfer_from_to_fields (t : Token) (frm dst : Account) (value : Balance) :
    (transfer_from_to t frm dst value).fst.allowances = t.allowances ∧
    (transfer_from_to t frm dst value).fst.total_supply = t.total_supply ∧
    (transfer_from_to t frm dst value).fst.owner = t.owner ∧
    (transfer_from_to t frm dst value).fst.paused = t.paused ∧
    (transfer_from_to t frm dst value).fst.blacklist = t.blacklist := by
  unfold transfer_from_to
  split_ifs <;> simp

theorem transfer_from_err (t : Token) (caller frm dst : Account) (value : Balance)
    (e : Error) :
    (transfer_from t caller frm dst value).snd = some e →
    (transfer_from t caller frm dst value).fst = t := by
  unfold transfer_from
  split_ifs with h1
  · simp
  · cases htft : transfer_from_to t frm dst value with
    | mk t1 r =>
      cases r with
      | none => simp
      | some e2 =>
        intro _
        have h2 := transfer_from_to_err t frm dst value e2 (by rw [htft])
        rw [htft] at h2
        simpa using h2

end Token

theorem sumVals_debit_credit {α : Type} [DecidableEq α]
    (m : List (α × Nat)) (frm dst : α) (value S : Nat)
    (hv : value ≤ (mapGet m frm).getD 0)
    (hS : sumVals m = S) (hmax : S ≤ u128max) :
    sumVals
      (mapInsert (mapInsert m frm ((mapGet m frm).getD 0 - value)) dst
        (saturating_add
          ((mapGet (mapInsert m frm ((mapGet m frm).getD 0 - value)) dst).getD 0)
          value)) = S := by
  have A := sumVals_mapInsert m frm ((mapGet m frm).getD 0 - value)
  have B := getD_mapGet_le_sumVals m frm
  set m1 := mapInsert m frm ((mapGet m frm).getD 0 - value) with hm1
  have C := sumVals_mapInsert m1 dst (saturating_add ((mapGet m1 dst).getD 0) value)
  have D := getD_mapGet_le_sumVals m1 dst
  have hsat : saturating_add ((mapGet m1 dst).getD 0) value = (mapGet m1 dst).getD 0 + value := by
    unfold saturating_add
    omega
  rw [hsat] at C ⊢
  omega

namespace Token

theorem transfer_from_to_sum (t : Token) (frm dst : Account) (value : Balance)
    (hs : sumVals t.balances = t.total_supply) (hm : t.total_supply ≤ u128max) :
    sumVals (transfer_from_to t frm dst value).fst.balances = t.total_supply := by
  unfold transfer_from_to
  split_ifs with h1 h2 h3
  · exact hs
  · exact hs
  · exact hs
  · simp only [balance_of, saturating_sub]
    exact sumVals_debit_credit t.balances frm dst value t.total_supply
      (by exact not_lt.mp h3) hs hm

theorem applyTOp_invariant (t : Token) (op : TOp)
    (hs : sumVals t.balances = t.total_supply) (hm : t.total_supply ≤ u128max) :
    sumVals (applyTOp t op).fst.balances = (applyTOp t op).fst.total_supply ∧
    (applyTOp t op).fst.total_supply = t.total_supply := by
  cases op with
  | transfer caller dst value =>
    have hf := (transfer_from_to_fields t caller dst value).2.1
    have hsum := transfer_from_to_sum t caller dst value hs hm
    exact ⟨by simpa [applyTOp, transfer, hf] using hsum, by simpa [applyTOp, transfer] using hf⟩
  | transfer_from caller frm dst value =>
    simp only [applyTOp, transfer_from]
    split_ifs with h1
    · exact ⟨hs, rfl⟩
    · cases htft : transfer_from_to t frm dst value with
      | mk t1 r =>
        have hf : t1.total_supply = t.total_supply := by
          have := (transfer_from_to_fields t frm dst value).2.1
          rw [htft] at this; simpa using this
        have hsum : sumVals t1.balances = t.total_supply := by
          have := transfer_from_to_sum t frm dst value hs hm
          rw [htft] at this; simpa using this
        cases r with
        | some e => exact ⟨by simpa [hf] using hsum, by simpa using hf⟩
        | none => exact ⟨by simpa [hf] using hsum, by simpa using hf⟩

theorem runTOps_invariant (ops : List TOp) :
    ∀ t : Token, sumVals t.balances = t.total_supply → t.total_supply ≤ u128max →
      sumVals (runTOps t ops).balances = (runTOps t ops).total_supply ∧
      (runTOps t ops).total_supply = t.total_supply := by
  induction ops with
  | nil => intro t hs _; exact ⟨hs, rfl⟩
  | cons op rest ih =>
    intro t hs hm
    have hstep := applyTOp_invariant t op hs hm
    have := ih (applyTOp t op).fst hstep.1 (hstep.2 ▸ hm)
    exact ⟨by simpa [runTOps] using this.1, by simpa [runTOps, hstep.2] using this.2⟩

end Token

/-- **C1.** For every sequence of `transfer` and `transfer_from` messages
(no mint or burn) starting from a ledger state in which the sum of all
stored balance entries equals `total_supply` (a `u128`-representable
value), the sum of all balance entries still equals `total_supply` after
the whole sequence, whether the individual messages succeed or fail —
self-transfers included, since the sequence is unconstrained. -/
theorem supply_conservation_under_transfer_sequences
    (t : Token) (ops : List TOp)
    (hs : sumVals t.balances = t.total_supply)
    (hm : t.total_supply ≤ u128max) :
    sumVals (Token.runTOps t ops).balances = (Token.runTOps t ops).total_supply :=
  (Token.runTOps_invariant ops t hs hm).1

/-- Witness for C1: a concrete ledger with supply 100, running a successful
transfer, a failing (insufficient-balance) transfer, a self-transfer and a
`transfer_from` without allowance, still sums to 100. -/
theorem supply_conservation_under_transfer_sequences_witness :
    sumVals (Token.new 0 100).balances = (Token.new 0 100).total_supply ∧
    (Token.new 0 100).total_supply ≤ u128max ∧
    sumVals
        (Token.runTOps (Token.new 0 100)
          [TOp.transfer 0 1 30, TOp.transfer 1 2 500, TOp.transfer 0 0 20,
            TOp.transfer_from 2 0 1 10]).balances =
      (Token.runTOps (Token.new 0 100)
          [TOp.transfer 0 1 30, TOp.transfer 1 2 500, TOp.transfer 0 0 20,
            TOp.transfer_from 2 0 1 10]).total_supply :=
  ⟨by decide, by decide,
    supply_conservation_under_transfer_sequences (Token.new 0 100)
      [TOp.transfer 0 1 30, TOp.transfer 1 2 500, TOp.transfer 0 0 20,
        TOp.transfer_from 2 0 1 10] (by decide) (by decide)⟩

/-- **C6.** Every fallible ledger message (`transfer`, `transfer_from`,
`burn`, `decrease_allowance`, `pause`, `unpause`, `blacklist_address`,
`remove_from_blacklist`) that returns an error leaves the whole ledger
state — supply, balances, allowances, paused flag, blacklist, owner —
exactly as it was before the call. -/
theorem ledger_error_leaves_state_unchanged (t : Token) (op : LedgerOp)
    (e : Token.Error) :
    (Token.applyOp t op).snd = some e → (Token.applyOp t op).fst = t := by
  cases op with
  | transfer caller dst value =>
    exact Token.transfer_from_to_err t caller dst value e
  | transfer_from caller frm dst value =>
    exact Token.transfer_from_err t caller frm dst value e
  | burn caller value =>
    simp only [Token.applyOp]
    unfold Token.burn
    split_ifs <;> simp
  | decrease_allowance caller spender delta_value =>
    simp only [Token.applyOp]
    unfold Token.decrease_allowance
    split_ifs <;> simp
  | pause caller =>
    simp only [Token.applyOp]
    unfold Token.pause
    split_ifs <;> simp
  | unpause caller =>
    simp only [Token.applyOp]
    unfold Token.unpause
    split_ifs <;> simp
  | blacklist_address caller account =>
    simp only [Token.applyOp]
    unfold Token.blacklist_address
    split_ifs <;> simp
  | remove_from_blacklist caller account =>
    simp only [Token.applyOp]
    unfold Token.remove_from_blacklist
    split_ifs <;> simp

/-- Witness for C6: burning 500 from an account holding 100 fails with
`InsufficientBalance` and leaves the freshly constructed ledger intact. -/
theorem ledger_error_leaves_state_unchanged_witness :
    (Token.applyOp (Token.new 0 100) (LedgerOp.burn 0 500)).snd =
      some Token.Error.InsufficientBalance ∧
    (Token.applyOp (Token.new 0 100) (LedgerOp.burn 0 500)).fst = Token.new 0 100 :=
  ⟨by decide,
    ledger_error_leaves_state_unchanged (Token.new 0 100) (LedgerOp.burn 0 500)
      Token.Error.InsufficientBalance (by decide)⟩

/-- **C7.** `batch_transfer` applies `transfer` to the entries in list
order: either every entry succeeds and the call returns `Ok` in the fully
updated state, or the list splits as `pre ++ (dst, value) :: post` where
all of `pre` succeeded (and those balance changes are kept), the entry
`(dst, value)` is the first failure, and the call stops there returning
exactly that entry's error in the state reached after `pre`. -/
theorem batch_transfer_stops_at_first_failure (caller : Account)
    (recipients : List (Account × Balance)) (t : Token) :
    (∃ t1, Token.transfersOk t caller recipients = some t1 ∧
      Token.batch_transfer t caller recipients = (t1, none)) ∨
    (∃ pre dst value post t1 e,
      recipients = pre ++ (dst, value) :: post ∧
      Token.transfersOk t caller pre = some t1 ∧
      (Token.transfer t1 caller dst value).snd = some e ∧
      Token.batch_transfer t caller recipients = (t1, some e)) := by
  induction recipients generalizing t with
  | nil => exact Or.inl ⟨t, rfl, rfl⟩
  | cons hd rest ih =>
    obtain ⟨dst, value⟩ := hd
    cases htr : Token.transfer t caller dst value with
    | mk t1 r =>
      cases r with
      | some e =>
        right
        have hfst : t1 = t := by
          have h2 := Token.transfer_from_to_err t caller dst value e
            (by show (Token.transfer t caller dst value).snd = some e; rw [htr])
          have : (Token.transfer t caller dst value).fst = t := h2
          rw [htr] at this
          simpa using this
        subst hfst
        refine ⟨[], dst, value, rest, t1, e, rfl, rfl, by rw [htr], ?_⟩
        show Token.batch_transfer t1 caller ((dst, value) :: rest) = (t1, some e)
        unfold Token.batch_transfer
        rw [htr]
      | none =>
        rcases ih t1 with ⟨t2, hok, hbt⟩ | ⟨pre, d2, v2, post, t2, e, heq, hok, herr, hbt⟩
        · left
          refine ⟨t2, ?_, ?_⟩
          · unfold Token.transfersOk
            rw [htr]
            exact hok
          · unfold Token.batch_transfer
            rw [htr]
            exact hbt
        · right
          refine ⟨(dst, value) :: pre, d2, v2, post, t2, e, by simp [heq], ?_, herr, ?_⟩
          · unfold Token.transfersOk
            rw [htr]
            exact hok
          · unfold Token.batch_transfer
            rw [htr]
            exact hbt

/-- **C4.** `approve(spender, v)` overwrites the allowance so that
`allowance(owner, spender)` is exactly `v` afterwards (not added to the
previous value); and a successful `transfer_from(frm, dst, x)` by a spender
whose allowance from `frm` was `v`, with `x ≤ v`, leaves
`allowance(frm, spender) = v - x`. -/
theorem approve_overwrites_and_transfer_from_decrements
    (t : Token) (owner spender dst : Account) (v x : Balance) :
    Token.allowance (Token.approve t owner spender v).fst owner spender = v ∧
    (Token.allowance t owner spender = v → x ≤ v →
      (Token.transfer_from t spender owner dst x).snd = none →
      Token.allowance (Token.transfer_from t spender owner dst x).fst owner spender
        = v - x) := by
  constructor
  · simp [Token.approve, Token.allowance, mapGet_mapInsert_self]
  · intro hv hx hsnd
    unfold Token.transfer_from at hsnd ⊢
    split_ifs at hsnd ⊢ with h1
    cases htft : Token.transfer_from_to t owner dst x with
    | mk t1 r =>
      cases r with
      | some e => rw [htft] at hsnd; simp at hsnd
      | none =>
        have hv2 : (mapGet t.allowances (owner, spender)).getD 0 = v := hv
        simp [Token.allowance, mapGet_mapInsert_self, saturating_sub, hv2]

/-- Witness for C4: owner 0 approves spender 2 for 100; spender 2 moves 40
from 0 to 1; the remaining allowance is 60. -/
theorem approve_overwrites_and_transfer_from_decrements_witness :
    Token.allowance (Token.approve (Token.new 0 1000) 0 2 100).fst 0 2 = 100 ∧
    Token.allowance (Token.approve (Token.new 0 1000) 0 2 100).fst 0 2 = 100 ∧
    (40 : Balance) ≤ 100 ∧
    (Token.transfer_from (Token.approve (Token.new 0 1000) 0 2 100).fst 2 0 1 40).snd = none ∧
    Token.allowance
        (Token.transfer_from (Token.approve (Token.new 0 1000) 0 2 100).fst 2 0 1 40).fst
        0 2 = 100 - 40 :=
  ⟨(approve_overwrites_and_transfer_from_decrements (Token.new 0 1000) 0 2 1 100 40).1,
    by decide, by decide, by decide,
    (approve_overwrites_and_transfer_from_decrements
        (Token.approve (Token.new 0 1000) 0 2 100).fst 0 2 1 100 40).2
      (by decide) (by decide) (by decide)⟩

/-- Counterexample for C5 as stated: after a successful `pause()` on a
fresh ledger, a `transfer_from` whose spender has no allowance returns
`InsufficientAllowance`, not `Paused` — the allowance check in
`transfer_from` runs before the pause gate of `transfer_from_to`. -/
theorem pause_gate_counterexample :
    (Token.pause (Token.new 0 1000) 0).snd = none ∧
    (Token.pause (Token.new 0 1000) 0).fst.paused = true ∧
    (Token.transfer_from (Token.pause (Token.new 0 1000) 0).fst 2 0 1 5).snd =
      some Token.Error.InsufficientAllowance ∧
    some Token.Error.InsufficientAllowance ≠ some Token.Error.Paused := by
  decide

/-- **C5 (amended).** While the ledger is paused (after a successful
`pause()`, whose success indeed sets the flag, and before a successful
`unpause()`): every `transfer` fails with `Paused` and changes nothing;
every `transfer_from` fails and changes nothing, with error `Paused`
whenever the spender's allowance covers the requested value and
`InsufficientAllowance` otherwise (the allowance check precedes the pause
gate). -/
theorem pause_gate_amended (t : Token) (caller frm dst spender : Account)
    (value : Balance) (hp : t.paused = true) :
    (∀ (t0 : Token) (c0 : Account),
      (Token.pause t0 c0).snd = none → (Token.pause t0 c0).fst.paused = true) ∧
    Token.transfer t caller dst value = (t, some Token.Error.Paused) ∧
    (value ≤ Token.allowance t frm spender →
      Token.transfer_from t spender frm dst value = (t, some Token.Error.Paused)) ∧
    (Token.allowance t frm spender < value →
      Token.transfer_from t spender frm dst value =
        (t, some Token.Error.InsufficientAllowance)) := by
  have htft : Token.transfer_from_to t frm dst value = (t, some Token.Error.Paused) := by
    unfold Token.transfer_from_to
    rw [hp]
    simp
  refine ⟨?_, ?_, ?_, ?_⟩
  · intro t0 c0
    unfold Token.pause
    split_ifs <;> simp
  · unfold Token.transfer Token.transfer_from_to
    rw [hp]
    simp
  · intro hge
    unfold Token.transfer_from
    rw [if_neg (not_lt.mpr hge), htft]
  · intro hlt
    unfold Token.transfer_from
    rw [if_pos hlt]

/-- Witness for C5 (amended), on the concrete ledger obtained by pausing a
fresh one: `transfer` gives `Paused`; `transfer_from` of 0 (covered by the
zero allowance) gives `Paused`; `transfer_from` of 5 (not covered) gives
`InsufficientAllowance`. -/
theorem pause_gate_amended_witness :
    (Token.pause (Token.new 0 1000) 0).fst.paused = true ∧
    Token.transfer (Token.pause (Token.new 0 1000) 0).fst 0 1 5 =
      ((Token.pause (Token.new 0 1000) 0).fst, some Token.Error.Paused) ∧
    (0 : Balance) ≤ Token.allowance (Token.pause (Token.new 0 1000) 0).fst 0 2 ∧
    Token.transfer_from (Token.pause (Token.new 0 1000) 0).fst 2 0 1 0 =
      ((Token.pause (Token.new 0 1000) 0).fst, some Token.Error.Paused) ∧
    Token.allowance (Token.pause (Token.new 0 1000) 0).fst 0 2 < 5 ∧
    Token.transfer_from (Token.pause (Token.new 0 1000) 0).fst 2 0 1 5 =
      ((Token.pause (Token.new 0 1000) 0).fst, some Token.Error.InsufficientAllowance) :=
  ⟨by decide,
    (pause_gate_amended (Token.pause (Token.new 0 1000) 0).fst 0 0 1 2 5 (by decide)).2.1,
    by decide,
    (pause_gate_amended (Token.pause (Token.new 0 1000) 0).fst 0 0 1 2 0
        (by decide)).2.2.1 (by decide),
    by decide,
    (pause_gate_amended (Token.pause (Token.new 0 1000) 0).fst 0 0 1 2 5
        (by decide)).2.2.2 (by decide)⟩

/-- **C10.** `mint`, `burn`, `approve`, `increase_allowance` and
`decrease_allowance` ignore the pause flag and the blacklist: on a state
whose `paused`/`blacklist` fields are set arbitrarily they return the same
result and perform the same state change (apart from those two untouched
fields) as on the unmodified state; in particular `mint`, `approve` and
`increase_allowance` always succeed, and `burn` succeeds whenever the
caller's balance covers the burned value. -/
theorem mint_burn_approve_allowance_ungated
    (t : Token) (b : Bool) (bl : List (Account × Bool)) (caller spender : Account)
    (value : Balance) :
    (Token.mint { t with paused := b, blacklist := bl } caller value).snd = none ∧
    (Token.mint { t with paused := b, blacklist := bl } caller value).fst =
      { (Token.mint t caller value).fst with paused := b, blacklist := bl } ∧
    (Token.approve { t with paused := b, blacklist := bl } caller spender value).snd = none ∧
    (Token.approve { t with paused := b, blacklist := bl } caller spender value).fst =
      { (Token.approve t caller spender value).fst with paused := b, blacklist := bl } ∧
    (Token.increase_allowance { t with paused := b, blacklist := bl } caller spender value).snd
      = none ∧
    (Token.increase_allowance { t with paused := b, blacklist := bl } caller spender value).fst =
      { (Token.increase_allowance t caller spender value).fst with
          paused := b, blacklist := bl } ∧
    (Token.burn { t with paused := b, blacklist := bl } caller value).snd =
      (Token.burn t caller value).snd ∧
    (Token.burn { t with paused := b, blacklist := bl } caller value).fst =
      { (Token.burn t caller value).fst with paused := b, blacklist := bl } ∧
    (value ≤ Token.balance_of t caller →
      (Token.burn { t with paused := b, blacklist := bl } caller value).snd = none) ∧
    (Token.decrease_allowance { t with paused := b, blacklist := bl } caller spender value).snd =
      (Token.decrease_allowance t caller spender value).snd ∧
    (Token.decrease_allowance { t with paused := b, blacklist := bl } caller spender value).fst =
      { (Token.decrease_allowance t caller spender value).fst with
          paused := b, blacklist := bl } := by
  refine ⟨?_, ?_, ?_, ?_, ?_, ?_, ?_, ?_, ?_, ?_, ?_⟩
  · simp [Token.mint]
  · simp [Token.mint, Token.balance_of]
  · simp [Token.approve]
  · simp [Token.approve]
  · simp [Token.increase_allowance]
  · simp [Token.increase_allowance, Token.allowance]
  · unfold Token.burn
    simp only [Token.balance_of]
    split_ifs <;> simp
  · unfold Token.burn
    simp only [Token.balance_of]
    split_ifs <;> simp
  · intro h
    unfold Token.burn
    simp only [Token.balance_of]
    rw [if_neg (by simpa [Token.balance_of] using not_lt.mpr h)]
  · unfold Token.decrease_allowance
    simp only [Token.allowance]
    split_ifs <;> simp
  · unfold Token.decrease_allowance
    simp only [Token.allowance]
    split_ifs <;> simp

/-- Witness for C10: on a paused ledger whose only holder 0 is also
blacklisted, burning 5 of the 10 held still succeeds. -/
theorem mint_burn_approve_allowance_ungated_witness :
    (5 : Balance) ≤ Token.balance_of (Token.new 0 10) 0 ∧
    (Token.burn { Token.new 0 10 with paused := true, blacklist := [(0, true)] } 0 5).snd
      = none :=
  ⟨by decide,
    (mint_burn_approve_allowance_ungated (Token.new 0 10) true [(0, true)] 0 1
        5).2.2.2.2.2.2.2.2.1 (by decide)⟩

/-- **C2.** `withdraw(amount)` returns `ZeroAmount` when `amount = 0`;
otherwise `InsufficientBalance` when the caller's vault balance is below
`amount`; otherwise `WithdrawalTooEarly` when a lock time is stored for the
caller and the current timestamp is below it; otherwise it decrements the
caller's vault-local balance by `amount` *before* the cross-contract ledger
transfer, and when that ledger call fails it returns `TokenTransferFailed`
with the decrement left in place (the caller's vault balance stays reduced
by `amount`). -/
theorem withdraw_checks_then_commits_before_ledger_call
    (p : V6psp20piggybank) (caller : Account) (amount : Balance) (now : Nat)
    (call_ok : Bool) :
    (amount = 0 →
      V6psp20piggybank.withdraw p caller amount now call_ok =
        (p, some V6psp20piggybank.Error.ZeroAmount)) ∧
    (amount ≠ 0 → V6psp20piggybank.balance_of p caller < amount →
      V6psp20piggybank.withdraw p caller amount now call_ok =
        (p, some V6psp20piggybank.Error.InsufficientBalance)) ∧
    (amount ≠ 0 → amount ≤ V6psp20piggybank.balance_of p caller →
      V6psp20piggybank.locked p caller now = true →
      V6psp20piggybank.withdraw p caller amount now call_ok =
        (p, some V6psp20piggybank.Error.WithdrawalTooEarly)) ∧
    (amount ≠ 0 → amount ≤ V6psp20piggybank.balance_of p caller →
      V6psp20piggybank.locked p caller now = false →
      (V6psp20piggybank.withdraw p caller amount now false).snd =
        some V6psp20piggybank.Error.TokenTransferFailed ∧
      V6psp20piggybank.balance_of
          (V6psp20piggybank.withdraw p caller amount now false).fst caller =
        V6psp20piggybank.balance_of p caller - amount) := by
  refine ⟨?_, ?_, ?_, ?_⟩
  · intro h0
    simp [V6psp20piggybank.withdraw, h0]
  · intro h0 hlt
    simp [V6psp20piggybank.withdraw, h0, hlt]
  · intro h0 hge hlk
    have h2 : ¬ V6psp20piggybank.balance_of p caller < amount := not_lt.mpr hge
    simp [V6psp20piggybank.withdraw, h0, h2, hlk]
  · intro h0 hge hlk
    have h2 : ¬ V6psp20piggybank.balance_of p caller < amount := not_lt.mpr hge
    have h3 : ¬ (p.balances caller).getD 0 < amount := h2
    constructor
    · simp [V6psp20piggybank.withdraw, h0, h2, hlk]
    · simp [V6psp20piggybank.withdraw, h0, h2, h3, hlk, V6psp20piggybank.balance_of,
        mupdate, saturating_sub]

/-- Witness for C2: a vault where account 1 holds 50 (deposited with a
successful ledger call, no lock): withdrawing 20 with a failing ledger call
reports `TokenTransferFailed` yet leaves the balance at 30. -/
theorem withdraw_checks_then_commits_before_ledger_call_witness :
    (20 : Balance) ≠ 0 ∧
    (20 : Balance) ≤ V6psp20piggybank.balance_of
      (V6psp20piggybank.deposit (V6psp20piggybank.new 0 9) 1 50 true).fst 1 ∧
    V6psp20piggybank.locked
      (V6psp20piggybank.deposit (V6psp20piggybank.new 0 9) 1 50 true).fst 1 7 = false ∧
    (V6psp20piggybank.withdraw
        (V6psp20piggybank.deposit (V6psp20piggybank.new 0 9) 1 50 true).fst 1 20 7 false).snd =
      some V6psp20piggybank.Error.TokenTransferFailed ∧
    V6psp20piggybank.balance_of
        (V6psp20piggybank.withdraw
          (V6psp20piggybank.deposit (V6psp20piggybank.new 0 9) 1 50 true).fst 1 20 7 false).fst
        1 =
      V6psp20piggybank.balance_of
        (V6psp20piggybank.deposit (V6psp20piggybank.new 0 9) 1 50 true).fst 1 - 20 :=
  ⟨by decide, by decide, by rfl,
    ((withdraw_checks_then_commits_before_ledger_call
        (V6psp20piggybank.deposit (V6psp20piggybank.new 0 9) 1 50 true).fst 1 20 7
        false).2.2.2 (by decide) (by decide) (by rfl)).1,
    ((withdraw_checks_then_commits_before_ledger_call
        (V6psp20piggybank.deposit (V6psp20piggybank.new 0 9) 1 50 true).fst 1 20 7
        false).2.2.2 (by decide) (by decide) (by rfl)).2⟩

/-- **C3.** `deposit(amount)` returns `ZeroAmount` for `amount = 0` and
changes nothing; when the cross-contract `transfer_from` on the token
ledger fails it returns `TokenTransferFailed` with no vault-local mutation
at all (balances, goals and lock times untouched, the cross-contract call
being placed before any local write); when the call succeeds it returns
`Ok` and the caller's vault balance grows by exactly `amount`
(saturating). -/
theorem deposit_call_then_commit (p : V6psp20piggybank) (caller : Account)
    (amount : Balance) :
    (∀ call_ok, amount = 0 →
      V6psp20piggybank.deposit p caller amount call_ok =
        (p, some V6psp20piggybank.Error.ZeroAmount)) ∧
    (amount ≠ 0 →
      V6psp20piggybank.deposit p caller amount false =
        (p, some V6psp20piggybank.Error.TokenTransferFailed)) ∧
    (amount ≠ 0 →
      (V6psp20piggybank.deposit p caller amount true).snd = none ∧
      V6psp20piggybank.balance_of (V6psp20piggybank.deposit p caller amount true).fst caller =
        saturating_add (V6psp20piggybank.balance_of p caller) amount ∧
      (V6psp20piggybank.deposit p caller amount true).fst.goals = p.goals ∧
      (V6psp20piggybank.deposit p caller amount true).fst.lock_times = p.lock_times) := by
  refine ⟨?_, ?_, ?_⟩
  · intro call_ok h0
    simp [V6psp20piggybank.deposit, h0]
  · intro h0
    simp [V6psp20piggybank.deposit, h0]
  · intro h0
    refine ⟨?_, ?_, ?_, ?_⟩ <;>
      simp [V6psp20piggybank.deposit, h0, V6psp20piggybank.balance_of, mupdate]

/-- Witness for C3: depositing 100 with a failing ledger call (the §8
scenario of an insufficient allowance) leaves the fresh vault untouched;
depositing 100 with a successful call credits exactly 100. -/
theorem deposit_call_then_commit_witness :
    (100 : Balance) ≠ 0 ∧
    V6psp20piggybank.deposit (V6psp20piggybank.new 0 9) 1 100 false =
      (V6psp20piggybank.new 0 9, some V6psp20piggybank.Error.TokenTransferFailed) ∧
    V6psp20piggybank.balance_of
        (V6psp20piggybank.deposit (V6psp20piggybank.new 0 9) 1 100 true).fst 1 =
      saturating_add (V6psp20piggybank.balance_of (V6psp20piggybank.new 0 9) 1) 100 :=
  ⟨by decide,
    (deposit_call_then_commit (V6psp20piggybank.new 0 9) 1 100).2.1 (by decide),
    ((deposit_call_then_commit (V6psp20piggybank.new 0 9) 1 100).2.2 (by decide)).2.1⟩

/-- **C8.** `is_goal_reached(a)` is `true` exactly when a goal entry is
stored for `a` and the vault balance of `a` is at least that goal; in
particular it is `false` whenever no goal entry is stored. -/
theorem is_goal_reached_spec (p : V6psp20piggybank) (a : Account) :
    (V6psp20piggybank.is_goal_reached p a = true ↔
      ∃ g, p.goals a = some g ∧ g ≤ V6psp20piggybank.balance_of p a) ∧
    (p.goals a = none → V6psp20piggybank.is_goal_reached p a = false) := by
  constructor
  · unfold V6psp20piggybank.is_goal_reached
    cases hg : p.goals a with
    | none => simp
    | some g => simp [ge_iff_le]
  · intro hg
    unfold V6psp20piggybank.is_goal_reached
    rw [hg]

/-- Witness for C8: after setting goal 50 for account 1 and depositing 60,
the predicate holds for 1; account 2 has no goal entry, so it is false. -/
theorem is_goal_reached_spec_witness :
    V6psp20piggybank.is_goal_reached
      (V6psp20piggybank.deposit
        (V6psp20piggybank.set_goal (V6psp20piggybank.new 0 9) 1 50).fst 1 60 true).fst 1
      = true ∧
    (V6psp20piggybank.deposit
        (V6psp20piggybank.set_goal (V6psp20piggybank.new 0 9) 1 50).fst 1 60 true).fst.goals 2
      = none ∧
    V6psp20piggybank.is_goal_reached
      (V6psp20piggybank.deposit
        (V6psp20piggybank.set_goal (V6psp20piggybank.new 0 9) 1 50).fst 1 60 true).fst 2
      = false :=
  ⟨(is_goal_reached_spec
      (V6psp20piggybank.deposit
        (V6psp20piggybank.set_goal (V6psp20piggybank.new 0 9) 1 50).fst 1 60 true).fst 1).1.mpr
      ⟨50, by rfl, by decide⟩,
    by rfl,
    (is_goal_reached_spec
      (V6psp20piggybank.deposit
        (V6psp20piggybank.set_goal (V6psp20piggybank.new 0 9) 1 50).fst 1 60 true).fst 2).2
      (by rfl)⟩

/-- **C9.** `break_piggy_bank` removes the caller's balance, goal and
lock-time entries *before* the cross-contract ledger transfer: when the
vault balance is non-zero, the lock has elapsed and the ledger call fails,
it returns `TokenTransferFailed` while the removals stand — afterwards
`balance_of`, `goal_of` and `lock_time_of` for the caller all read 0 even
though no tokens left the vault's ledger account. -/
theorem break_piggy_bank_no_rollback (p : V6psp20piggybank) (caller : Account)
    (now : Nat) (hb : V6psp20piggybank.balance_of p caller ≠ 0)
    (hl : V6psp20piggybank.locked p caller now = false) :
    (V6psp20piggybank.break_piggy_bank p caller now false).snd =
      some V6psp20piggybank.Error.TokenTransferFailed ∧
    V6psp20piggybank.balance_of
      (V6psp20piggybank.break_piggy_bank p caller now false).fst caller = 0 ∧
    V6psp20piggybank.goal_of
      (V6psp20piggybank.break_piggy_bank p caller now false).fst caller = 0 ∧
    V6psp20piggybank.lock_time_of
      (V6psp20piggybank.break_piggy_bank p caller now false).fst caller = 0 := by
  have hb2 : ¬ (p.balances caller).getD 0 = 0 := hb
  refine ⟨?_, ?_, ?_, ?_⟩ <;>
    simp [V6psp20piggybank.break_piggy_bank, hb, hb2, hl, V6psp20piggybank.balance_of,
      V6psp20piggybank.goal_of, V6psp20piggybank.lock_time_of, mdelete]

/-- Witness for C9: account 1 deposited 40, set goal 50 and lock time 5;
at time 9 a `break_piggy_bank` whose ledger call fails reports
`TokenTransferFailed`, yet all three entries for 1 then read 0. -/
theorem break_piggy_bank_no_rollback_witness :
    V6psp20piggybank.balance_of
        (V6psp20piggybank.set_lock_time
          (V6psp20piggybank.set_goal
            (V6psp20piggybank.deposit (V6psp20piggybank.new 0 9) 1 40 true).fst 1 50).fst
          1 5).fst 1 ≠ 0 ∧
    V6psp20piggybank.locked
        (V6psp20piggybank.set_lock_time
          (V6psp20piggybank.set_goal
            (V6psp20piggybank.deposit (V6psp20piggybank.new 0 9) 1 40 true).fst 1 50).fst
          1 5).fst 1 9 = false ∧
    (V6psp20piggybank.break_piggy_bank
        (V6psp20piggybank.set_lock_time
          (V6psp20piggybank.set_goal
            (V6psp20piggybank.deposit (V6psp20piggybank.new 0 9) 1 40 true).fst 1 50).fst
          1 5).fst 1 9 false).snd = some V6psp20piggybank.Error.TokenTransferFailed ∧
    V6psp20piggybank.balance_of
      (V6psp20piggybank.break_piggy_bank
        (V6psp20piggybank.set_lock_time
          (V6psp20piggybank.set_goal
            (V6psp20piggybank.deposit (V6psp20piggybank.new 0 9) 1 40 true).fst 1 50).fst
          1 5).fst 1 9 false).fst 1 = 0 ∧
    V6psp20piggybank.goal_of
      (V6psp20piggybank.break_piggy_bank
        (V6psp20piggybank.set_lock_time
          (V6psp20piggybank.set_goal
            (V6psp20piggybank.deposit (V6psp20piggybank.new 0 9) 1 40 true).fst 1 50).fst
          1 5).fst 1 9 false).fst 1 = 0 ∧
    V6psp20piggybank.lock_time_of
      (V6psp20piggybank.break_piggy_bank
        (V6psp20piggybank.set_lock_time
          (V6psp20piggybank.set_goal
            (V6psp20piggybank.deposit (V6psp20piggybank.new 0 9) 1 40 true).fst 1 50).fst
          1 5).fst 1 9 false).fst 1 = 0 :=
  ⟨by decide, by rfl,
    (break_piggy_bank_no_rollback
        (V6psp20piggybank.set_lock_time
          (V6psp20piggybank.set_goal
            (V6psp20piggybank.deposit (V6psp20piggybank.new 0 9) 1 40 true).fst 1 50).fst
          1 5).fst 1 9 (by decide) (by rfl)).1,
    ((break_piggy_bank_no_rollback
        (V6psp20piggybank.set_lock_time
          (V6psp20piggybank.set_goal
            (V6psp20piggybank.deposit (V6psp20piggybank.new 0 9) 1 40 true).fst 1 50).fst
          1 5).fst 1 9 (by decide) (by rfl)).2).1,
    ((break_piggy_bank_no_rollback
        (V6psp20piggybank.set_lock_time
          (V6psp20piggybank.set_goal
            (V6psp20piggybank.deposit (V6psp20piggybank.new 0 9) 1 40 true).fst 1 50).fst
          1 5).fst 1 9 (by decide) (by rfl)).2).2.1,
    ((break_piggy_bank_no_rollback
        (V6psp20piggybank.set_lock_time
          (V6psp20piggybank.set_goal
            (V6psp20piggybank.deposit (V6psp20piggybank.new 0 9) 1 40 true).fst 1 50).fst
          1 5).fst 1 9 (by decide) (by rfl)).2).2.2⟩
